import Mathlib

/-!
Shallow embedding of the Reticulum Link subsystem (RNS/Link.py).

Bytes are modelled as lists of naturals (each < 256 where it matters),
times and rates as rationals, and the mutable Link object as an explicit
state record.  Calls into external collaborators (the Token AEAD, the
Identity crypto, umsgpack, the Resource engine, the Channel, Transport)
are modelled as oracle functions carried in an `Env` record, or as opaque
trace events.  Outbound packets, log lines and application callbacks are
recorded as an event trace so that claims about emission and silence can
be stated exactly.  Python exceptions are modelled by explicit control
flow that preserves the mutations performed before the raise.
-/

abbrev Bytes := List Nat

/-- Link.status values (Link.py: PENDING..CLOSED). -/
inductive LinkStatus
  | PENDING
  | HANDSHAKE
  | ACTIVE
  | STALE
  | CLOSED
  deriving DecidableEq, Repr

/-- Teardown reason codes (Link.py: TIMEOUT, INITIATOR_CLOSED, DESTINATION_CLOSED). -/
inductive Reason
  | TIMEOUT
  | INITIATOR_CLOSED
  | DESTINATION_CLOSED
  deriving DecidableEq, Repr

/-- Packet types used by the Link (RNS.Packet.DATA / PROOF / LINKREQUEST). -/
inductive PType
  | DATA
  | PROOF
  | LINKREQUEST
  deriving DecidableEq, Repr

/-- Packet contexts dispatched by Link.receive (RNS.Packet contexts). -/
inductive Ctx
  | NONE
  | LINKIDENTIFY
  | REQUEST
  | RESPONSE
  | LRRTT
  | LINKCLOSE
  | RESOURCE_ADV
  | RESOURCE_REQ
  | RESOURCE_HMU
  | RESOURCE_ICL
  | RESOURCE_RCL
  | KEEPALIVE
  | RESOURCE
  | CHANNEL
  | RESOURCE_PRF
  | LRPROOF
  deriving DecidableEq, Repr

/-- Destination proof strategies (RNS.Destination.PROVE_NONE / PROVE_APP / PROVE_ALL),
read by the DATA/NONE branch of Link.receive. -/
inductive ProofStrategy
  | PROVE_NONE
  | PROVE_APP
  | PROVE_ALL
  deriving DecidableEq, Repr

/-- RequestReceipt status values (RequestReceipt.FAILED..READY). -/
inductive RRStatus
  | FAILED
  | SENT
  | DELIVERED
  | RECEIVING
  | READY
  deriving DecidableEq, Repr

/-- Observable actions of the Link: outbound packets handed to Transport,
log lines, application callbacks, and hand-offs to external subsystems. -/
inductive Event
  | packetSent (ptype : PType) (context : Ctx) (payload : Bytes)
  | logged
  | callbackClosed
  | callbackEstablished
  | callbackPacket (plaintext : Bytes)
  | callbackRemoteIdentified
  | callbackFailed
  | callbackResponse
  | callbackProgress
  | packetReceiptDelivery
  | packetProved
  | resourceCancelled
  | resourceEngine
  | requestDispatched (request_id : Bytes)
  | channelShutdown
  | channelReceived (plaintext : Bytes)
  | destinationUnlinked
  | transportActivateLink
  deriving DecidableEq, Repr

/-- An inbound packet as seen by the Link layer.  `data` is the Link-layer
payload (packet.data), `raw_len` the length of packet.raw, `truncated_hash`
the value of packet.getTruncatedHash(). -/
structure Packet where
  packet_type : PType
  context : Ctx
  data : Bytes
  receiving_interface : Nat
  packet_hash : Bytes
  truncated_hash : Bytes
  raw_len : Nat
  deriving DecidableEq, Repr

/-- The slice of an RNS.Resource object that Link.py reads or writes
(hash for matching, req_hashlist for de-duplicating resource requests). -/
structure Res where
  hash : Bytes
  req_hashlist : List Bytes
  deriving DecidableEq, Repr

/-- One in-flight RPC (class RequestReceipt).  Callback attributes are
modelled as presence flags; firing a callback is a trace event. -/
structure RequestReceipt where
  request_id : Bytes
  status : RRStatus
  progress : ℚ
  response : Option Bytes
  metadata : Option Bytes
  response_size : Option Nat
  response_transfer_size : Option Nat
  sent_at : ℚ
  started_at : Option ℚ
  concluded_at : Option ℚ
  response_concluded_at : Option ℚ
  timeout : ℚ
  has_response_callback : Bool
  has_failed_callback : Bool
  has_progress_callback : Bool
  has_packet_receipt : Bool
  deriving DecidableEq, Repr

/-- The mutable state of one Link object (class Link).  Key objects are
modelled as optional byte strings (None in Python becomes `none`);
callback slots as presence flags; the owning/‌destination objects are
reduced to the fields Link.py actually reads from them. -/
structure LinkState where
  status : LinkStatus
  initiator : Bool
  mode : Nat
  mtu : Nat
  mdu : Int
  rtt : Option ℚ
  keepalive : ℚ
  stale_time : ℚ
  traffic_timeout_factor : ℚ
  keepalive_timeout_factor : ℚ
  request_time : ℚ
  establishment_timeout : ℚ
  establishment_cost : Nat
  establishment_rate : Option ℚ
  activated_at : Option ℚ
  last_inbound : ℚ
  last_outbound : ℚ
  last_keepalive : ℚ
  last_data : ℚ
  last_proof : ℚ
  rx : Nat
  tx : Nat
  rxbytes : Nat
  txbytes : Nat
  link_id : Bytes
  prv : Option Bytes
  pub : Option Bytes
  pub_bytes : Option Bytes
  sig_prv : Option Bytes
  sig_pub_bytes : Option Bytes
  peer_pub_bytes : Option Bytes
  peer_sig_pub_bytes : Option Bytes
  shared_key : Option Bytes
  derived_key : Option Bytes
  remote_identity : Option Bytes
  attached_interface : Option Nat
  teardown_reason : Option Reason
  watchdog_lock : Bool
  channel_open : Bool
  destination_in : Bool
  proof_strategy : ProofStrategy
  has_proof_requested_callback : Bool
  resource_strategy : Nat
  has_established_callback : Bool
  owner_has_established_callback : Bool
  has_closed_callback : Bool
  has_packet_callback : Bool
  has_resource_callback : Bool
  has_remote_identified_callback : Bool
  incoming_resources : List Res
  outgoing_resources : List Res
  pending_requests : List RequestReceipt
  deriving DecidableEq, Repr

/-- Oracles for the external collaborators invoked by Link.py.  `none`
results model the exceptions those collaborators may raise. -/
structure Env where
  now : ℚ
  tokenDecrypt : Bytes → Bytes → Option Bytes
  identityValidate : Bytes → Bytes → Bytes → Bool
  dhExchange : Bytes → Bytes → Bytes
  hkdf : Nat → Bytes → Bytes → Bytes
  unpackRtt : Bytes → Option ℚ
  packRtt : ℚ → Bytes
  unpackRequestOk : Bytes → Bool
  unpackResponse : Bytes → Option (Bytes × Bytes × Nat)
  parseResourceHash : Bytes → Bytes
  proofRequestedAnswer : Bool
  destIdentityPub : Bytes

/-! ### Constants (Link.py class attributes and the external sizes it uses) -/

def ECPUBSIZE : Nat := 32 + 32

def LINK_MTU_SIZE : Nat := 3

def MTU_BYTEMASK : Nat := 0x1FFFFF

def MODE_BYTEMASK : Nat := 0xE0

def MODE_AES128_CBC : Nat := 0x00

def MODE_AES256_CBC : Nat := 0x01

def ENABLED_MODES : List Nat := [ MODE_AES256_CBC ]

def MODE_DEFAULT : Nat := MODE_AES256_CBC

/-- RNS.Identity.SIGLENGTH // 8 (Ed25519 signature size in bytes; external module). -/
def SIGLENGTH_BYTES : Nat := 64

/-- RNS.Identity.KEYSIZE // 8 (public key size in bytes: X25519 ‖ Ed25519; external module). -/
def IDENTITY_KEYSIZE_BYTES : Nat := 64

/-- RNS.Identity.HASHLENGTH // 8 (full hash size in bytes; external module). -/
def HASHLENGTH_BYTES : Nat := 32

/-- Modelled from the spec: RNS.Reticulum.MTU, the default wire MTU.  The
constant lives in the external Reticulum module; the reference value is 500. -/
def RETICULUM_MTU : Nat := 500

/-- Modelled from the spec: RNS.Reticulum.HEADER_MINSIZE (external module). -/
def HEADER_MINSIZE : Int := 19

/-- Modelled from the spec: RNS.Reticulum.IFAC_MIN_SIZE (external module). -/
def IFAC_MIN_SIZE : Int := 1

/-- Modelled from the spec: RNS.Identity.TOKEN_OVERHEAD, the AEAD token
overhead in bytes (external module). -/
def TOKEN_OVERHEAD : Int := 48

/-- Modelled from the spec: RNS.Identity.AES128_BLOCKSIZE (external module). -/
def AES128_BLOCKSIZE : Int := 16

def KEEPALIVE_MAX : ℚ := 360

def KEEPALIVE_MIN : ℚ := 5

/-- Link.KEEPALIVE_MAX_RTT = 1.75, written exactly as a rational. -/
def KEEPALIVE_MAX_RTT : ℚ := 7 / 4

def STALE_FACTOR : ℚ := 2

def STALE_GRACE : ℚ := 5

/-! ### Signalling codec (Link.signalling_bytes, mtu_from_* , mode_from_*) -/

/-- The 24-bit signalling word: (mtu & MTU_BYTEMASK) + (((mode << 5) & MODE_BYTEMASK) << 16). -/
def signalling_value (mtu mode : Nat) : Nat :=
  (mtu &&& MTU_BYTEMASK) + (((mode <<< 5) &&& MODE_BYTEMASK) <<< 16)

/-- Link.signalling_bytes: struct.pack(">I", value)[1:].  Returns `none` for
the TypeError raised when the mode is not in ENABLED_MODES. -/
def signalling_bytes (mtu mode : Nat) : Option Bytes :=
  if mode ∈ ENABLED_MODES then
    some [signalling_value mtu mode >>> 16 % 256,
          signalling_value mtu mode >>> 8 % 256,
          signalling_value mtu mode % 256]
  else none

/-- Link.mtu_from_lr_packet: read the 3 trailing signalling bytes of a
link-request payload.  Python precedence makes the mask apply to the whole
reassembled word. -/
def mtu_from_lr_packet (packet : Packet) : Option Nat :=
  if packet.data.length = ECPUBSIZE + LINK_MTU_SIZE then
    some (((packet.data.getD ECPUBSIZE 0 <<< 16)
           + (packet.data.getD (ECPUBSIZE + 1) 0 <<< 8)
           + packet.data.getD (ECPUBSIZE + 2) 0) &&& MTU_BYTEMASK)
  else none

/-- Link.mtu_from_lp_packet: same for a link-proof payload. -/
def mtu_from_lp_packet (packet : Packet) : Option Nat :=
  if packet.data.length = SIGLENGTH_BYTES + ECPUBSIZE / 2 + LINK_MTU_SIZE then
    some (((packet.data.getD (SIGLENGTH_BYTES + ECPUBSIZE / 2) 0 <<< 16)
           + (packet.data.getD (SIGLENGTH_BYTES + ECPUBSIZE / 2 + 1) 0 <<< 8)
           + packet.data.getD (SIGLENGTH_BYTES + ECPUBSIZE / 2 + 2) 0) &&& MTU_BYTEMASK)
  else none

/-- Link.mode_from_lr_packet: high 3 bits of the first signalling byte,
MODE_DEFAULT when no signalling is present. -/
def mode_from_lr_packet (packet : Packet) : Nat :=
  if packet.data.length > ECPUBSIZE then
    (packet.data.getD ECPUBSIZE 0 &&& MODE_BYTEMASK) >>> 5
  else MODE_DEFAULT

/-- Link.mode_from_lp_packet: as above for a link proof (the source shifts
without masking; the byte is already < 256). -/
def mode_from_lp_packet (packet : Packet) : Nat :=
  if packet.data.length > SIGLENGTH_BYTES + ECPUBSIZE / 2 then
    packet.data.getD (SIGLENGTH_BYTES + ECPUBSIZE / 2) 0 >>> 5
  else MODE_DEFAULT

/-! ### Small state operations -/

/-- Link.had_outbound: refresh outbound timestamps. -/
def had_outbound (st : LinkState) (now : ℚ) (is_keepalive : Bool) : LinkState :=
  if is_keepalive then { st with last_outbound := now, last_keepalive := now }
  else { st with last_outbound := now, last_data := now }

/-- The value assigned by Link.update_mdu:
floor((mtu − IFAC_MIN_SIZE − HEADER_MINSIZE − TOKEN_OVERHEAD) / AES128_BLOCKSIZE) · AES128_BLOCKSIZE − 1.
Python's math.floor of a true division over integers is floor division,
modelled by Int.fdiv. -/
def update_mdu_val (mtu ifac hdr tok block : Int) : Int :=
  ((mtu - ifac - hdr - tok).fdiv block) * block - 1

/-- Link.update_mdu.  The source first assigns an intermediate value using
HEADER_MAXSIZE which is immediately overwritten; only the final value is
modelled. -/
def update_mdu (st : LinkState) : LinkState :=
  { st with mdu := update_mdu_val (st.mtu : Int) IFAC_MIN_SIZE HEADER_MINSIZE TOKEN_OVERHEAD AES128_BLOCKSIZE }

/-- Link.__update_keepalive: clamp rtt·(KEEPALIVE_MAX/KEEPALIVE_MAX_RTT)
into [KEEPALIVE_MIN, KEEPALIVE_MAX]; stale_time = keepalive · STALE_FACTOR.
Every caller assigns rtt first; on rtt = None Python would raise, which no
modelled call path reaches. -/
def update_keepalive (st : LinkState) : LinkState :=
  match st.rtt with
  | some r =>
    let ka := max (min (r * (KEEPALIVE_MAX / KEEPALIVE_MAX_RTT)) KEEPALIVE_MAX) KEEPALIVE_MIN
    { st with keepalive := ka, stale_time := ka * STALE_FACTOR }
  | none => st

/-- Link.decrypt: instantiate the token from derived_key and decrypt.  A
missing derived key makes the Token constructor raise, and a failed
decryption raises inside the token; both are caught and yield None.  The
internal token cache is determined by derived_key and is not modelled
separately. -/
def link_decrypt (st : LinkState) (env : Env) (ciphertext : Bytes) : Option Bytes :=
  match st.derived_key with
  | none => none
  | some key => env.tokenDecrypt key ciphertext

/-- Link.decrypt logs when it fails; the caller-side event for a `none`
result. -/
def decrypt_events (o : Option Bytes) : List Event :=
  if o.isNone then [Event.logged] else []

/-! ### Teardown and close (Link.teardown, Link.__teardown_packet,
Link.teardown_packet, Link.link_closed) -/

/-- Link.__teardown_packet: send a DATA/LINKCLOSE packet whose payload is
the link_id, then had_outbound(). -/
def teardown_packet_send (st : LinkState) (now : ℚ) : LinkState × List Event :=
  (had_outbound st now false, [Event.packetSent PType.DATA Ctx.LINKCLOSE st.link_id])

/-- Link.link_closed: cancel resources (each external Resource.cancel calls
back into cancel_incoming_resource / cancel_outgoing_resource, emptying the
lists), shut the channel down, null the DH private/public keys and the
shared and derived keys (signing keys and peer public keys are left as
they are), unregister from an inbound destination, and fire the
link_closed callback. -/
def link_closed (st : LinkState) : LinkState × List Event :=
  let cancel_evs := st.incoming_resources.map (fun _ => Event.resourceCancelled)
                 ++ st.outgoing_resources.map (fun _ => Event.resourceCancelled)
  let chan_evs := if st.channel_open then [Event.channelShutdown] else []
  let st1 := { st with
    incoming_resources := [], outgoing_resources := [], channel_open := false,
    prv := none, pub := none, pub_bytes := none, shared_key := none, derived_key := none }
  let dest_evs := if st1.destination_in then [Event.destinationUnlinked] else []
  let cb_evs := if st1.has_closed_callback then [Event.callbackClosed] else []
  (st1, cancel_evs ++ chan_evs ++ dest_evs ++ cb_evs)

/-- Link.teardown: send a LINKCLOSE unless PENDING or already CLOSED, set
CLOSED, set the role-dependent reason, run link_closed. -/
def teardown (st : LinkState) (now : ℚ) : LinkState × List Event :=
  let sendPkt := st.status ≠ LinkStatus.PENDING ∧ st.status ≠ LinkStatus.CLOSED
  let first := if sendPkt then teardown_packet_send st now else (st, [])
  let st2 := { first.1 with
    status := LinkStatus.CLOSED,
    teardown_reason := some (if first.1.initiator then Reason.INITIATOR_CLOSED
                             else Reason.DESTINATION_CLOSED) }
  let closed := link_closed st2
  (closed.1, first.2 ++ closed.2)

/-- Link.teardown_packet: honour a remote LINKCLOSE only when the decrypted
payload equals link_id; exceptions (and decryption failures) are swallowed. -/
def teardown_packet (st : LinkState) (pkt : Packet) (env : Env) : LinkState × List Event :=
  match link_decrypt st env pkt.data with
  | none => (st, [Event.logged])
  | some pt =>
    if pt = st.link_id then
      let st1 := { st with
        status := LinkStatus.CLOSED,
        teardown_reason := some (if st.initiator then Reason.DESTINATION_CLOSED
                                 else Reason.INITIATOR_CLOSED) }
      link_closed st1
    else (st, [])

/-! ### Handshake and proof validation (Link.load_peer, Link.handshake,
Link.validate_proof) -/

/-- Link.load_peer: store the peer's public key bytes. -/
def load_peer (st : LinkState) (ppb pspb : Bytes) : LinkState :=
  { st with peer_pub_bytes := some ppb, peer_sig_pub_bytes := some pspb }

/-- The derived-key length selected in Link.handshake; `none` is the
TypeError raised for any other mode. -/
def derived_key_length (mode : Nat) : Option Nat :=
  if mode = MODE_AES128_CBC then some 32
  else if mode = MODE_AES256_CBC then some 64
  else none

/-- Link.handshake.  The Bool is true when the TypeError for an invalid
mode is raised; note the raise happens after status and shared_key were
already mutated.  Callers always load the peer key first. -/
def handshake (st : LinkState) (env : Env) : LinkState × List Event × Bool :=
  if st.status = LinkStatus.PENDING ∧ st.prv.isSome then
    let shared := env.dhExchange (st.prv.getD []) (st.peer_pub_bytes.getD [])
    let st1 := { st with status := LinkStatus.HANDSHAKE, shared_key := some shared }
    match derived_key_length st1.mode with
    | some len => ({ st1 with derived_key := some (env.hkdf len shared st1.link_id) }, [], false)
    | none => (st1, [], true)
  else (st, [Event.logged], false)

/-- The except-branch of Link.validate_proof: any exception raised in the
body sets status = CLOSED (without zeroing keys) and logs twice. -/
def validate_proof_failure (st : LinkState) (evs : List Event) : LinkState × List Event :=
  ({ st with status := LinkStatus.CLOSED }, evs ++ [Event.logged, Event.logged])

/-- Link.validate_proof, initiator side: check mode, adopt optional
confirmed MTU, load the peer DH key and the destination's long-term
signing key, run the handshake, verify the proof signature, and on
success go ACTIVE, measure rtt, send the LRRTT packet and fire the
established callback.  An invalid signature is only logged; exceptions
land in validate_proof_failure. -/
def validate_proof (st : LinkState) (pkt : Packet) (env : Env) : LinkState × List Event :=
  if st.status = LinkStatus.PENDING then
    let mode := mode_from_lp_packet pkt
    if mode ≠ st.mode then validate_proof_failure st [Event.logged]
    else
      let parsed : Option (Bytes × Bytes × Option Nat) :=
        if pkt.data.length = SIGLENGTH_BYTES + ECPUBSIZE / 2 + LINK_MTU_SIZE then
          match mtu_from_lp_packet pkt with
          | some cm =>
            match signalling_bytes cm mode with
            | some sb => some (pkt.data.take (SIGLENGTH_BYTES + ECPUBSIZE / 2), sb, some cm)
            | none => none
          | none => none
        else some (pkt.data, [], none)
      match parsed with
      | none => validate_proof_failure st [Event.logged]
      | some (data, signalling, confirmed_mtu) =>
        if st.initiator ∧ data.length = SIGLENGTH_BYTES + ECPUBSIZE / 2 then
          let peer_pub_bytes := (data.drop SIGLENGTH_BYTES).take (ECPUBSIZE / 2)
          let peer_sig_pub_bytes := (env.destIdentityPub.drop (ECPUBSIZE / 2)).take (ECPUBSIZE / 2)
          let st1 := load_peer st peer_pub_bytes peer_sig_pub_bytes
          let hs := handshake st1 env
          if hs.2.2 then validate_proof_failure hs.1 (Event.logged :: hs.2.1)
          else
            let st2 := hs.1
            let hevs := hs.2.1
            let st3 := { st2 with establishment_cost := st2.establishment_cost + pkt.raw_len }
            let signed_data := st3.link_id ++ peer_pub_bytes ++ peer_sig_pub_bytes ++ signalling
            let signature := data.take SIGLENGTH_BYTES
            if env.identityValidate env.destIdentityPub signature signed_data then
              if st3.status ≠ LinkStatus.HANDSHAKE then
                validate_proof_failure st3 (Event.logged :: hevs)
              else
                let rtt := env.now - st3.request_time
                let mtuV := match confirmed_mtu with
                            | some m => if m = 0 then RETICULUM_MTU else m
                            | none => RETICULUM_MTU
                let st4 := { st3 with
                  rtt := some rtt,
                  attached_interface := some pkt.receiving_interface,
                  remote_identity := some env.destIdentityPub,
                  mtu := mtuV }
                let st5 := update_mdu st4
                let st6 := { st5 with
                  status := LinkStatus.ACTIVE,
                  activated_at := some env.now, last_proof := env.now }
                let st7 := if 0 < rtt ∧ 0 < st6.establishment_cost then
                             { st6 with establishment_rate := some ((st6.establishment_cost : ℚ) / rtt) }
                           else st6
                let st8 := update_keepalive st7
                let st9 := had_outbound st8 env.now false
                let evs := Event.logged :: hevs
                           ++ [Event.transportActivateLink, Event.logged,
                               Event.packetSent PType.DATA Ctx.LRRTT (env.packRtt rtt)]
                           ++ (if st9.has_established_callback then [Event.callbackEstablished] else [])
                (st9, evs)
            else (st3, Event.logged :: hevs ++ [Event.logged])
        else (st, [Event.logged])
  else (st, [])

/-! ### Request/response bookkeeping (RequestReceipt.response_received,
Link.handle_response, Link.handle_request, RequestReceipt.request_timed_out) -/

/-- RequestReceipt.response_received: unless already FAILED, finish the
receipt (progress 1.0, READY) and fire delivery/progress/response
callbacks. -/
def response_received (r : RequestReceipt) (rdata : Bytes) (meta : Option Bytes) (now : ℚ) :
    RequestReceipt × List Event :=
  if r.status ≠ RRStatus.FAILED then
    let r1 := { r with
      progress := 1, response := some rdata, metadata := meta,
      status := RRStatus.READY, response_concluded_at := some now }
    let evs := (if r1.has_packet_receipt then [Event.packetReceiptDelivery] else [])
            ++ (if r1.has_progress_callback then [Event.callbackProgress] else [])
            ++ (if r1.has_response_callback then [Event.callbackResponse] else [])
    (r1, evs)
  else (r, [])

/-- Link.handle_response: on an ACTIVE link, find the pending request with
this request_id, update its sizes, conclude it, and remove it from
pending_requests only after checking membership.  Python identity-based
membership and removal are modelled positionally; exceptions inside the
conclusion are caught and logged by the caller's handler. -/
def handle_response (st : LinkState) (request_id rdata : Bytes)
    (response_size response_transfer_size : Nat) (meta : Option Bytes) (now : ℚ) :
    LinkState × List Event :=
  if st.status = LinkStatus.ACTIVE then
    match st.pending_requests.findIdx? (fun p => p.request_id == request_id) with
    | some i =>
      match st.pending_requests[i]? with
      | some p =>
        let p1 := { p with
          response_size := some response_size,
          response_transfer_size := some (p.response_transfer_size.getD 0 + response_transfer_size) }
        let concluded := response_received p1 rdata meta now
        let updated := st.pending_requests.set i concluded.1
        let pending := if concluded.1 ∈ updated then updated.eraseIdx i else updated
        ({ st with pending_requests := pending }, concluded.2)
      | none => (st, [])
    | none => (st, [])
  else (st, [])

/-- Link.handle_request: only on an ACTIVE link; the handler lookup,
allow-policy and response generation live in the external Destination
registry and Resource engine, summarised as one dispatch event. -/
def handle_request (st : LinkState) (request_id : Bytes) : LinkState × List Event :=
  if st.status = LinkStatus.ACTIVE then (st, [Event.requestDispatched request_id])
  else (st, [])

/-- RequestReceipt.request_timed_out: set FAILED and concluded_at, then
remove the receipt from link.pending_requests unconditionally.  When the
receipt is no longer in the list, Python's list.remove raises ValueError
after the mutation; the error value carries the already-mutated receipt
and the untouched link state. -/
def request_timed_out (st : LinkState) (r : RequestReceipt) (now : ℚ) :
    Except (LinkState × RequestReceipt) (LinkState × RequestReceipt × List Event) :=
  let r1 := { r with status := RRStatus.FAILED, concluded_at := some now }
  match st.pending_requests.findIdx? (fun p => p.request_id == r1.request_id) with
  | some i =>
    let st1 := { st with pending_requests := st.pending_requests.eraseIdx i }
    let evs := if r1.has_failed_callback then [Event.callbackFailed] else []
    Except.ok (st1, r1, evs)
  | none => Except.error (st, r1)

/-! ### RTT packet and keep-alive send (Link.rtt_packet, Link.send_keepalive) -/

/-- Link.rtt_packet (responder side of LRRTT): decrypt, unpack the peer's
measured rtt, take the max with the locally measured one, go ACTIVE and
fire the owner's established callback.  A decryption failure falls
through silently (only the decrypt log); an unpack exception tears the
link down. -/
def rtt_packet (st : LinkState) (pkt : Packet) (env : Env) : LinkState × List Event :=
  match link_decrypt st env pkt.data with
  | none => (st, [Event.logged])
  | some pt =>
    match env.unpackRtt pt with
    | none =>
      let torn := teardown st env.now
      (torn.1, Event.logged :: torn.2)
    | some peer_rtt =>
      let measured := env.now - st.request_time
      let rtt := max measured peer_rtt
      let st1 := { st with rtt := some rtt, status := LinkStatus.ACTIVE, activated_at := some env.now }
      let st2 := if 0 < rtt ∧ 0 < st1.establishment_cost then
                   { st1 with establishment_rate := some ((st1.establishment_cost : ℚ) / rtt) }
                 else st1
      let st3 := update_keepalive st2
      (st3, if st3.owner_has_established_callback then [Event.callbackEstablished] else [])

/-- Link.send_keepalive: a DATA/KEEPALIVE packet with payload 0xFF, then
had_outbound(is_keepalive=True). -/
def send_keepalive (st : LinkState) (now : ℚ) : LinkState × List Event :=
  (had_outbound st now true, [Event.packetSent PType.DATA Ctx.KEEPALIVE [0xFF]])

/-! ### Inbound dispatch (the (type, context) table of Link.receive) -/

/-- One step of the RESOURCE_REQ scan over outgoing_resources: forward the
request to a matching resource unless this packet hash was already seen
(sequencing de-duplication). -/
def resource_req_step (pkt : Packet) (resource_hash : Bytes)
    (acc : List Res × List Event) (r : Res) : List Res × List Event :=
  if r.hash = resource_hash ∧ pkt.packet_hash ∉ r.req_hashlist then
    (acc.1 ++ [{ r with req_hashlist := r.req_hashlist ++ [pkt.packet_hash] }],
     acc.2 ++ [Event.resourceEngine])
  else (acc.1 ++ [r], acc.2)

/-- The (packet_type, context) dispatch table in the body of Link.receive.
Hand-offs into the external Resource engine and Channel are recorded as
events; branches that decrypt first do nothing further when decryption
fails (beyond the failure log inside Link.decrypt). -/
def dispatch (st : LinkState) (pkt : Packet) (env : Env) : LinkState × List Event :=
  match pkt.packet_type, pkt.context with
  | PType.DATA, Ctx.NONE =>
    match link_decrypt st env pkt.data with
    | none => (st, [Event.logged])
    | some pt =>
      let evs1 := if st.has_packet_callback then [Event.callbackPacket pt] else []
      let evs2 := match st.proof_strategy with
        | ProofStrategy.PROVE_ALL => [Event.packetProved]
        | ProofStrategy.PROVE_APP =>
          if st.has_proof_requested_callback ∧ env.proofRequestedAnswer
          then [Event.packetProved] else []
        | ProofStrategy.PROVE_NONE => []
      (st, evs1 ++ evs2)
  | PType.DATA, Ctx.LINKIDENTIFY =>
    match link_decrypt st env pkt.data with
    | none => (st, [Event.logged])
    | some pt =>
      if ¬st.initiator ∧ pt.length = IDENTITY_KEYSIZE_BYTES + SIGLENGTH_BYTES then
        let public_key := pt.take IDENTITY_KEYSIZE_BYTES
        let signed_data := st.link_id ++ public_key
        let signature := (pt.drop IDENTITY_KEYSIZE_BYTES).take SIGLENGTH_BYTES
        if env.identityValidate public_key signature signed_data then
          let st1 := { st with remote_identity := some public_key }
          (st1, if st1.has_remote_identified_callback then [Event.callbackRemoteIdentified] else [])
        else (st, [])
      else (st, [])
  | PType.DATA, Ctx.REQUEST =>
    match link_decrypt st env pkt.data with
    | none => (st, [Event.logged])
    | some pt =>
      if env.unpackRequestOk pt then handle_request st pkt.truncated_hash
      else (st, [Event.logged])
  | PType.DATA, Ctx.RESPONSE =>
    match link_decrypt st env pkt.data with
    | none => (st, [Event.logged])
    | some pt =>
      match env.unpackResponse pt with
      | none => (st, [Event.logged])
      | some (rid, rdata, tsize) => handle_response st rid rdata tsize tsize none env.now
  | PType.DATA, Ctx.LRRTT =>
    if ¬st.initiator then rtt_packet st pkt env else (st, [])
  | PType.DATA, Ctx.LINKCLOSE => teardown_packet st pkt env
  | PType.DATA, Ctx.RESOURCE_ADV =>
    match link_decrypt st env pkt.data with
    | none => (st, [Event.logged])
    | some _ => (st, [Event.resourceEngine])
  | PType.DATA, Ctx.RESOURCE_REQ =>
    match link_decrypt st env pkt.data with
    | none => (st, [Event.logged])
    | some pt =>
      let scanned := st.outgoing_resources.foldl (resource_req_step pkt (env.parseResourceHash pt)) ([], [])
      ({ st with outgoing_resources := scanned.1 }, scanned.2)
  | PType.DATA, Ctx.RESOURCE_HMU =>
    match link_decrypt st env pkt.data with
    | none => (st, [Event.logged])
    | some pt =>
      (st, (st.incoming_resources.filter (fun r => r.hash == pt.take HASHLENGTH_BYTES)).map
            (fun _ => Event.resourceEngine))
  | PType.DATA, Ctx.RESOURCE_ICL =>
    match link_decrypt st env pkt.data with
    | none => (st, [Event.logged])
    | some pt =>
      ({ st with incoming_resources :=
           st.incoming_resources.filter (fun r => ¬ r.hash = pt.take HASHLENGTH_BYTES) },
       (st.incoming_resources.filter (fun r => r.hash == pt.take HASHLENGTH_BYTES)).map
        (fun _ => Event.resourceCancelled))
  | PType.DATA, Ctx.RESOURCE_RCL =>
    match link_decrypt st env pkt.data with
    | none => (st, [Event.logged])
    | some pt =>
      (st, (st.outgoing_resources.filter (fun r => r.hash == pt.take HASHLENGTH_BYTES)).map
            (fun _ => Event.resourceEngine))
  | PType.DATA, Ctx.KEEPALIVE =>
    if ¬st.initiator ∧ pkt.data = [0xFF] then
      (had_outbound st env.now true, [Event.packetSent PType.DATA Ctx.KEEPALIVE [0xFE]])
    else (st, [])
  | PType.DATA, Ctx.RESOURCE =>
    (st, st.incoming_resources.map (fun _ => Event.resourceEngine))
  | PType.DATA, Ctx.CHANNEL =>
    if ¬st.channel_open then (st, [Event.logged])
    else
      match link_decrypt st env pkt.data with
      | none => (st, [Event.packetProved, Event.logged])
      | some pt => (st, [Event.packetProved, Event.channelReceived pt])
  | PType.PROOF, Ctx.RESOURCE_PRF =>
    (st, (st.outgoing_resources.filter (fun r => r.hash == pkt.data.take HASHLENGTH_BYTES)).map
          (fun _ => Event.resourceEngine))
  | _, _ => (st, [])

/-- Link.receive: the single inbound entry point.  Drop when CLOSED or when
an initiator sees its own 0xFF keep-alive echo; reject (log only) on an
interface mismatch; otherwise refresh timestamps and counters, revive a
STALE link, and dispatch by (type, context).  The cooperative
watchdog_lock is raised for the duration and lowered at the end. -/
def receive (st0 : LinkState) (pkt : Packet) (env : Env) : LinkState × List Event :=
  let st := { st0 with watchdog_lock := true }
  let result :=
    if st.status = LinkStatus.CLOSED
       ∨ (st.initiator ∧ pkt.context = Ctx.KEEPALIVE ∧ pkt.data = [0xFF]) then
      (st, ([] : List Event))
    else if some pkt.receiving_interface ≠ st.attached_interface then
      (st, [Event.logged])
    else
      let st1 := { st with last_inbound := env.now }
      let st2 := if pkt.context ≠ Ctx.KEEPALIVE then { st1 with last_data := env.now } else st1
      let st3 := { st2 with rx := st2.rx + 1, rxbytes := st2.rxbytes + pkt.data.length }
      let st4 := if st3.status = LinkStatus.STALE then { st3 with status := LinkStatus.ACTIVE } else st3
      dispatch st4 pkt env
  ({ result.1 with watchdog_lock := false }, result.2)

/-! ### Watchdog (Link.__watchdog_job, one iteration of the timer loop) -/

/-- One iteration of the Link.__watchdog_job loop body (the state-driven
schedule; real-time sleeping and the lock poll are timing mechanics and
are not part of the state transition).  In every modelled branch Python's
computed sleep_time is non-negative, so the timing-error teardown at the
bottom of the loop is unreachable.  An ACTIVE link always has rtt set; if
it did not, Python would raise while computing the stale grace period and
the watchdog thread would die without further mutation, which the
rtt = none fallback mirrors. -/
def watchdog_iteration (st : LinkState) (now : ℚ) : LinkState × List Event :=
  match st.status with
  | LinkStatus.PENDING =>
    if now ≥ st.request_time + st.establishment_timeout then
      let st1 := { st with status := LinkStatus.CLOSED, teardown_reason := some Reason.TIMEOUT }
      let closed := link_closed st1
      (closed.1, Event.logged :: closed.2)
    else (st, [])
  | LinkStatus.HANDSHAKE =>
    if now ≥ st.request_time + st.establishment_timeout then
      let st1 := { st with status := LinkStatus.CLOSED, teardown_reason := some Reason.TIMEOUT }
      let closed := link_closed st1
      (closed.1, closed.2 ++ [Event.logged])
    else (st, [])
  | LinkStatus.ACTIVE =>
    let activated := st.activated_at.getD 0
    let li := max (max st.last_inbound st.last_proof) activated
    if now ≥ li + st.keepalive then
      let ka := if st.initiator ∧ now ≥ st.last_keepalive + st.keepalive
                then send_keepalive st now else (st, [])
      if now ≥ li + ka.1.stale_time then
        match ka.1.rtt with
        | some _ => ({ ka.1 with status := LinkStatus.STALE }, ka.2)
        | none => (ka.1, ka.2)
      else (ka.1, ka.2)
    else (st, [])
  | LinkStatus.STALE =>
    let sent := teardown_packet_send st now
    let st2 := { sent.1 with status := LinkStatus.CLOSED, teardown_reason := some Reason.TIMEOUT }
    let closed := link_closed st2
    (closed.1, sent.2 ++ closed.2)
  | LinkStatus.CLOSED => (st, [])

/-! ### Trace and state predicates used by the claims -/

/-- The outbound packets contained in an event trace. -/
def sentPackets (evs : List Event) : List Event :=
  evs.filter (fun e => match e with
    | Event.packetSent _ _ _ => true
    | _ => false)

/-- Whether an event is an outbound KEEPALIVE-context packet. -/
def isKeepaliveSend (e : Event) : Bool :=
  match e with
  | Event.packetSent _ Ctx.KEEPALIVE _ => true
  | _ => false

/-- The outbound KEEPALIVE-context packets contained in an event trace. -/
def keepaliveSends (evs : List Event) : List Event :=
  evs.filter isKeepaliveSend

/-- An event trace with the log lines removed. -/
def nonLogEvents (evs : List Event) : List Event :=
  evs.filter (fun e => !(e == Event.logged))

/-- The key material nulled by Link.link_closed: the DH private and public
keys, the shared secret and the derived symmetric key. -/
def keysZeroed (st : LinkState) : Prop :=
  st.prv = none ∧ st.pub = none ∧ st.pub_bytes = none
  ∧ st.shared_key = none ∧ st.derived_key = none

instance (st : LinkState) : Decidable (keysZeroed st) := by
  unfold keysZeroed; infer_instance

/-- The packet contexts whose Link.receive branch decrypts the payload as
its first action (CHANNEL also decrypts, but proves the packet before
doing so). -/
def encryptedCtx (c : Ctx) : Bool :=
  match c with
  | Ctx.NONE | Ctx.LINKIDENTIFY | Ctx.REQUEST | Ctx.RESPONSE | Ctx.LRRTT | Ctx.LINKCLOSE
  | Ctx.RESOURCE_ADV | Ctx.RESOURCE_REQ | Ctx.RESOURCE_HMU | Ctx.RESOURCE_ICL
  | Ctx.RESOURCE_RCL => true
  | _ => false

/-- The STALE-to-ACTIVE revival performed by Link.receive. -/
def unstale (s : LinkStatus) : LinkStatus :=
  if s = LinkStatus.STALE then LinkStatus.ACTIVE else s

/-! ### Concrete fixtures used by witnesses and counterexamples -/

/-- A concrete established initiator link. -/
def baseLink : LinkState := {
  status := LinkStatus.ACTIVE, initiator := true, mode := MODE_AES256_CBC,
  mtu := 500, mdu := 431, rtt := some 1, keepalive := 5, stale_time := 10,
  traffic_timeout_factor := 6, keepalive_timeout_factor := 4,
  request_time := 0, establishment_timeout := 6,
  establishment_cost := 100, establishment_rate := none,
  activated_at := some 1, last_inbound := 1, last_outbound := 1,
  last_keepalive := 0, last_data := 1, last_proof := 1,
  rx := 0, tx := 0, rxbytes := 0, txbytes := 0,
  link_id := [1, 2, 3], prv := some [7], pub := some [8], pub_bytes := some [8],
  sig_prv := some [9], sig_pub_bytes := some [10],
  peer_pub_bytes := none, peer_sig_pub_bytes := none,
  shared_key := none, derived_key := some [5],
  remote_identity := none, attached_interface := some 0,
  teardown_reason := none, watchdog_lock := false,
  channel_open := false, destination_in := false,
  proof_strategy := ProofStrategy.PROVE_NONE, has_proof_requested_callback := false,
  resource_strategy := 0,
  has_established_callback := false, owner_has_established_callback := false,
  has_closed_callback := true, has_packet_callback := false,
  has_resource_callback := false, has_remote_identified_callback := false,
  incoming_resources := [], outgoing_resources := [], pending_requests := [] }

/-- A concrete environment: decryption always fails, signatures never verify. -/
def baseEnv : Env := {
  now := 100, tokenDecrypt := fun _ _ => none,
  identityValidate := fun _ _ _ => false,
  dhExchange := fun a b => a ++ b, hkdf := fun _ s _ => s,
  unpackRtt := fun _ => none, packRtt := fun _ => [0],
  unpackRequestOk := fun _ => false, unpackResponse := fun _ => none,
  parseResourceHash := fun b => b.take HASHLENGTH_BYTES,
  proofRequestedAnswer := false, destIdentityPub := List.replicate 64 3 }

/-- The base link before the proof arrives (initiator still PENDING). -/
def pendingLink : LinkState := { baseLink with status := LinkStatus.PENDING }

/-- A well-formed 96-byte LRPROOF payload (signature ‖ peer DH key, no signalling). -/
def proofPkt96 : Packet := {
  packet_type := PType.PROOF, context := Ctx.LRPROOF, data := List.replicate 96 2,
  receiving_interface := 0, packet_hash := [4], truncated_hash := [4], raw_len := 150 }

/-- A well-formed 99-byte LRPROOF payload carrying the 3-byte signalling
tail (MTU 500, mode AES-256). -/
def proofPkt99 : Packet := {
  packet_type := PType.PROOF, context := Ctx.LRPROOF,
  data := List.replicate 96 2 ++ [32, 1, 244],
  receiving_interface := 0, packet_hash := [4], truncated_hash := [4], raw_len := 153 }

/-- A 97-byte LRPROOF payload whose trailing byte signals mode 0,
mismatching the requested AES-256 mode. -/
def modeMismatchPkt : Packet := {
  packet_type := PType.PROOF, context := Ctx.LRPROOF, data := List.replicate 97 0,
  receiving_interface := 0, packet_hash := [4], truncated_hash := [4], raw_len := 151 }

/-- An encrypted DATA/NONE packet arriving on the pinned interface. -/
def dataNonePkt : Packet := {
  packet_type := PType.DATA, context := Ctx.NONE, data := [9, 9],
  receiving_interface := 0, packet_hash := [6], truncated_hash := [6], raw_len := 40 }

/-- A 0xFF keep-alive injected on a different interface than the pinned one. -/
def kaEchoWrongIfacePkt : Packet := {
  packet_type := PType.DATA, context := Ctx.KEEPALIVE, data := [0xFF],
  receiving_interface := 5, packet_hash := [6], truncated_hash := [6], raw_len := 20 }


/-- A keep-alive 0xFF echo arriving on the pinned interface. -/
def kaEchoPkt : Packet := {
  packet_type := PType.DATA, context := Ctx.KEEPALIVE, data := [0xFF],
  receiving_interface := 0, packet_hash := [6], truncated_hash := [6], raw_len := 20 }

/-- An encrypted DATA/NONE packet arriving on the wrong interface. -/
def dataWrongIfacePkt : Packet := {
  packet_type := PType.DATA, context := Ctx.NONE, data := [9],
  receiving_interface := 5, packet_hash := [6], truncated_hash := [6], raw_len := 40 }

/-- The base link as a responder. -/
def responderLink : LinkState := { baseLink with initiator := false }

/-- The base link still in HANDSHAKE. -/
def handshakeLink : LinkState := { baseLink with status := LinkStatus.HANDSHAKE }

/-- The base link gone STALE. -/
def staleLink : LinkState := { baseLink with status := LinkStatus.STALE }

/-- The base link after closing. -/
def closedLink : LinkState := { baseLink with status := LinkStatus.CLOSED }

/-- An environment whose token decrypts everything to the base link_id. -/
def closeEnv : Env := { baseEnv with tokenDecrypt := fun _ _ => some [1, 2, 3] }

/-- A link-request packet carrying signalling for MTU 500, mode AES-256. -/
def lrPkt500 : Packet := {
  packet_type := PType.LINKREQUEST, context := Ctx.NONE,
  data := List.replicate 64 0 ++ [32, 1, 244],
  receiving_interface := 0, packet_hash := [4], truncated_hash := [4], raw_len := 100 }

/-- A concrete in-flight request receipt. -/
def sampleReceipt : RequestReceipt := {
  request_id := [11], status := RRStatus.DELIVERED, progress := 0,
  response := none, metadata := none, response_size := none,
  response_transfer_size := none, sent_at := 0, started_at := some 0,
  concluded_at := none, response_concluded_at := none, timeout := 30,
  has_response_callback := false, has_failed_callback := true,
  has_progress_callback := false, has_packet_receipt := false }

set_option maxRecDepth 4000

/-! ### Helper lemmas -/

/-- The high-3-bit mask on a mode byte built from a small shift remainder. -/
theorem and_mask_mode_byte (t : Nat) (h : t < 32) : (t + 32) &&& 224 = 32 := by
  revert t
  decide

/-! ### C6: signalling codec round-trip -/

/-- The signalling word for the single enabled mode places mtu (< 2^21)
in the low 21 bits below the mode bit at position 21. -/
theorem sv_eq (mtu : Nat) (hmtu : mtu < 2 ^ 21) :
    signalling_value mtu 1 = mtu + 2 ^ 21 := by
  have h1 : mtu &&& MTU_BYTEMASK = mtu % 2 ^ 21 := by
    have h := Nat.and_pow_two_sub_one_eq_mod mtu 21
    norm_num at h
    simpa [MTU_BYTEMASK] using h
  have h2 : ((1 <<< 5) &&& MODE_BYTEMASK) <<< 16 = 2 ^ 21 := by decide
  unfold signalling_value
  rw [h1, h2, Nat.mod_eq_of_lt hmtu]

/-- The packed signalling bytes, written with division and remainder. -/
theorem signalling_bytes_eq (mtu : Nat) (hmtu : mtu < 2 ^ 21) :
    signalling_bytes mtu 1 = some [(mtu + 2 ^ 21) / 2 ^ 16 % 256,
                                   (mtu + 2 ^ 21) / 2 ^ 8 % 256,
                                   (mtu + 2 ^ 21) % 256] := by
  rw [signalling_bytes, if_pos (by decide)]
  simp only [Option.some.injEq, List.cons.injEq, and_true]
  refine ⟨?_, ?_, ?_⟩
  · rw [sv_eq mtu hmtu, Nat.shiftRight_eq_div_pow]
  · rw [sv_eq mtu hmtu, Nat.shiftRight_eq_div_pow]
  · rw [sv_eq mtu hmtu]

/-- Reassembling the three bytes and masking recovers the mtu. -/
theorem lr_mtu_decode (mtu b0 b1 b2 : Nat) (hmtu : mtu < 2 ^ 21)
    (h0 : b0 = (mtu + 2 ^ 21) / 2 ^ 16 % 256)
    (h1 : b1 = (mtu + 2 ^ 21) / 2 ^ 8 % 256)
    (h2 : b2 = (mtu + 2 ^ 21) % 256) :
    ((b0 <<< 16) + (b1 <<< 8) + b2) &&& MTU_BYTEMASK = mtu := by
  have hmask : b0 <<< 16 + b1 <<< 8 + b2 &&& MTU_BYTEMASK
      = (b0 <<< 16 + b1 <<< 8 + b2) % 2 ^ 21 := by
    have h := Nat.and_pow_two_sub_one_eq_mod (b0 <<< 16 + b1 <<< 8 + b2) 21
    norm_num at h
    simpa [MTU_BYTEMASK] using h
  rw [hmask]
  simp only [Nat.shiftLeft_eq]
  subst h0 h1 h2
  norm_num
  omega

/-- The high bits of the first byte recover the mode. -/
theorem lr_mode_decode (mtu b0 : Nat) (hmtu : mtu < 2 ^ 21)
    (h0 : b0 = (mtu + 2 ^ 21) / 2 ^ 16 % 256) :
    (b0 &&& MODE_BYTEMASK) >>> 5 = 1 := by
  have ht : mtu / 65536 < 32 := by omega
  have hb : b0 = mtu / 65536 + 32 := by
    rw [h0]
    norm_num
    omega
  rw [hb, show MODE_BYTEMASK = 224 from rfl, and_mask_mode_byte _ ht]
  decide

/-- Claim C6: the 3-byte signalling codec is a round-trip.  For every
mtu with 0 <= mtu < 2^21 and every mode in ENABLED_MODES, packing via
signalling_bytes places mtu in the low 21 bits and mode in the high 3
bits of the 24-bit word, and decoding a link-request packet carrying
that tail with mtu_from_lr_packet and mode_from_lr_packet returns
exactly (mtu, mode). -/
theorem C6_signalling_roundtrip (mtu mode : Nat) (pre sb : Bytes) (pkt : Packet)
    (hmtu : mtu < 2 ^ 21) (hmode : mode ∈ ENABLED_MODES) (hpre : pre.length = 64)
    (hsb : signalling_bytes mtu mode = some sb) (hdata : pkt.data = pre ++ sb) :
    signalling_value mtu mode = mode * 2 ^ 21 + mtu
    ∧ mtu_from_lr_packet pkt = some mtu
    ∧ mode_from_lr_packet pkt = mode := by
  have hm1 : mode = 1 := by
    simpa [ENABLED_MODES, MODE_AES256_CBC] using hmode
  subst hm1
  obtain ⟨b0, b1, b2, hb0, hb1, hb2, hsbv⟩ :
      ∃ b0 b1 b2, b0 = (mtu + 2 ^ 21) / 2 ^ 16 % 256
        ∧ b1 = (mtu + 2 ^ 21) / 2 ^ 8 % 256
        ∧ b2 = (mtu + 2 ^ 21) % 256
        ∧ sb = [b0, b1, b2] := by
    refine ⟨_, _, _, rfl, rfl, rfl, ?_⟩
    rw [signalling_bytes_eq mtu hmtu] at hsb
    exact (Option.some.injEq _ _ ▸ hsb).symm
  have hlen : pkt.data.length = 67 := by
    rw [hdata, List.length_append, hpre, hsbv]
    simp
  have hd0 : pkt.data.getD 64 0 = b0 := by
    rw [hdata, List.getD_append_right pre sb 0 64 (by omega), hpre, hsbv]
    simp
  have hd1 : pkt.data.getD 65 0 = b1 := by
    rw [hdata, List.getD_append_right pre sb 0 65 (by omega), hpre, hsbv]
    simp
  have hd2 : pkt.data.getD 66 0 = b2 := by
    rw [hdata, List.getD_append_right pre sb 0 66 (by omega), hpre, hsbv]
    simp
  refine ⟨by have := sv_eq mtu hmtu; omega, ?_, ?_⟩
  · rw [mtu_from_lr_packet, if_pos (by rw [hlen]; rfl)]
    rw [show ECPUBSIZE = 64 from rfl, hd0, hd1, hd2]
    exact congrArg some (lr_mtu_decode mtu b0 b1 b2 hmtu hb0 hb1 hb2)
  · rw [mode_from_lr_packet, if_pos (by rw [hlen]; decide)]
    rw [show ECPUBSIZE = 64 from rfl, hd0]
    exact lr_mode_decode mtu b0 hmtu hb0

/-- Claim C6 witness at mtu = 500, mode = AES-256-CBC. -/
theorem C6_signalling_roundtrip_witness :
    signalling_value 500 1 = 1 * 2 ^ 21 + 500
    ∧ mtu_from_lr_packet lrPkt500 = some 500
    ∧ mode_from_lr_packet lrPkt500 = 1 :=
  C6_signalling_roundtrip 500 1 (List.replicate 64 0) [32, 1, 244] lrPkt500
    (by decide) (by decide) (by decide) (by decide) (by decide)

/-! ### C7: update_mdu formula, block alignment and bound -/

/-- Claim C7: after every call to update_mdu, mdu equals
floor((mtu − ifac − hdr − tok) / block) · block − 1; consequently, for any
positive block size, mdu is congruent to −1 modulo the block size and
mdu is at most mtu minus the header, ifac and token overheads. -/
theorem C7_update_mdu (st : LinkState) (mtu ifac hdr tok block : Int) (hb : 0 < block) :
    (update_mdu st).mdu
      = update_mdu_val (st.mtu : Int) IFAC_MIN_SIZE HEADER_MINSIZE TOKEN_OVERHEAD AES128_BLOCKSIZE
    ∧ update_mdu_val mtu ifac hdr tok block ≡ -1 [ZMOD block]
    ∧ update_mdu_val mtu ifac hdr tok block ≤ mtu - hdr - ifac - tok := by
  refine ⟨rfl, ?_, ?_⟩
  · rw [Int.ModEq]
    unfold update_mdu_val
    have hsplit : (mtu - ifac - hdr - tok).fdiv block * block - 1
        = -1 + (mtu - ifac - hdr - tok).fdiv block * block := by ring
    rw [hsplit, Int.add_mul_emod_self]
  · unfold update_mdu_val
    rw [Int.fdiv_eq_ediv _ hb.le]
    have h := Int.ediv_mul_le (mtu - ifac - hdr - tok) hb.ne'
    omega

/-- Claim C7 witness at the reference constants (MTU 500, block 16). -/
theorem C7_update_mdu_witness :
    (update_mdu baseLink).mdu
      = update_mdu_val (baseLink.mtu : Int) IFAC_MIN_SIZE HEADER_MINSIZE TOKEN_OVERHEAD AES128_BLOCKSIZE
    ∧ update_mdu_val 500 1 19 48 16 ≡ -1 [ZMOD 16]
    ∧ update_mdu_val 500 1 19 48 16 ≤ 500 - 19 - 1 - 48 :=
  C7_update_mdu baseLink 500 1 19 48 16 (by norm_num)

/-! ### C8: keep-alive clamped into [5, 360], stale_time doubled -/

/-- Claim C8: for every non-negative measured rtt, after the keep-alive
parameters are updated from it the keepalive lies in
[KEEPALIVE_MIN = 5, KEEPALIVE_MAX = 360] seconds and
stale_time = 2 · keepalive. -/
theorem C8_keepalive_clamped (st : LinkState) (r : ℚ) (hr : st.rtt = some r) (h0 : 0 ≤ r) :
    5 ≤ (update_keepalive st).keepalive
    ∧ (update_keepalive st).keepalive ≤ 360
    ∧ (update_keepalive st).stale_time = 2 * (update_keepalive st).keepalive := by
  rw [update_keepalive, hr]
  refine ⟨?_, ?_, ?_⟩
  · simp only [KEEPALIVE_MIN]
    exact le_max_right (min (r * (KEEPALIVE_MAX / KEEPALIVE_MAX_RTT)) KEEPALIVE_MAX) (5 : ℚ)
  · refine max_le ?_ ?_
    · simp only [KEEPALIVE_MAX]
      exact min_le_right (r * (KEEPALIVE_MAX / KEEPALIVE_MAX_RTT)) (360 : ℚ)
    · norm_num [KEEPALIVE_MIN]
  · simp [STALE_FACTOR, mul_comm]

/-- Claim C8 witness at rtt = 1. -/
theorem C8_keepalive_clamped_witness :
    5 ≤ (update_keepalive baseLink).keepalive
    ∧ (update_keepalive baseLink).keepalive ≤ 360
    ∧ (update_keepalive baseLink).stale_time = 2 * (update_keepalive baseLink).keepalive :=
  C8_keepalive_clamped baseLink 1 rfl (by norm_num)

/-! ### C10: request_timed_out removes unconditionally, handle_response checks -/

/-- Claim C10: RequestReceipt.request_timed_out removes the receipt from
link.pending_requests unconditionally: for every receipt that is no
longer in pending_requests, invoking it raises an uncaught ValueError
from the list removal after having already set status to FAILED — the
error value carries the mutated receipt — whereas Link.handle_response
removes a receipt only after checking membership and is a no-op for an
absent request_id. -/
theorem C10_request_timeout_unconditional (st : LinkState) (r : RequestReceipt) (now : ℚ)
    (rid rdata : Bytes) (rsize rtsize : Nat) (meta : Option Bytes)
    (habs : ∀ p ∈ st.pending_requests, p.request_id ≠ r.request_id)
    (habs2 : ∀ p ∈ st.pending_requests, p.request_id ≠ rid) :
    request_timed_out st r now
      = Except.error (st, { r with status := RRStatus.FAILED, concluded_at := some now })
    ∧ ({ r with status := RRStatus.FAILED, concluded_at := some now } : RequestReceipt).status = RRStatus.FAILED
    ∧ handle_response st rid rdata rsize rtsize meta now = (st, []) := by
  have hnone : st.pending_requests.findIdx? (fun p => p.request_id == r.request_id) = none := by
    rw [List.findIdx?_eq_none_iff]
    intro p hp
    simpa using habs p hp
  have hnone2 : st.pending_requests.findIdx? (fun p => p.request_id == rid) = none := by
    rw [List.findIdx?_eq_none_iff]
    intro p hp
    simpa using habs2 p hp
  refine ⟨?_, rfl, ?_⟩
  · simp [request_timed_out, hnone]
  · simp [handle_response, hnone2]

/-- Claim C10 witness: a delivered receipt absent from the pending list. -/
theorem C10_request_timeout_unconditional_witness :
    request_timed_out baseLink sampleReceipt 40
      = Except.error (baseLink, { sampleReceipt with status := RRStatus.FAILED, concluded_at := some 40 })
    ∧ ({ sampleReceipt with status := RRStatus.FAILED, concluded_at := some 40 } : RequestReceipt).status = RRStatus.FAILED
    ∧ handle_response baseLink [11] [1] 1 1 none 40 = (baseLink, []) :=
  C10_request_timeout_unconditional baseLink sampleReceipt 40 [11] [1] 1 1 none
    (by simp [baseLink]) (by simp [baseLink])

/-! ### C1: invalid LRPROOF signature -/

/-- Claim C1 counterexample: with a well-formed 96-byte LRPROOF whose
signature does not verify, the initiator does not transition to CLOSED
(the code only logs and ignores the proof), contradicting the claim that
an invalid signature closes the link. -/
theorem C1_invalid_signature_counterexample :
    ¬ ((validate_proof pendingLink proofPkt96 baseEnv).1.status = LinkStatus.CLOSED) := by
  decide

/-- Claim C1 (amended): for every LRPROOF packet processed by the
initiator in validate_proof whose signature does not verify — in either
wire form, the 96-byte signature ‖ dh_pub payload or the 99-byte form
with the 3-byte MTU-signalling tail, with the signalled mode matching
the requested one as any packet reaching signature verification has —
the Link logs the failure and emits no packet, but its status remains
HANDSHAKE: it does not transition to CLOSED; the establishment watchdog
closes it later by timeout.  Only an exception during validation sets
CLOSED. -/
theorem C1_invalid_signature_keeps_handshake (st : LinkState) (pkt : Packet) (env : Env)
    (hst : st.status = LinkStatus.PENDING) (hini : st.initiator = true)
    (hprv : st.prv.isSome = true) (hmode : st.mode = MODE_AES256_CBC)
    (hlen : pkt.data.length = SIGLENGTH_BYTES + ECPUBSIZE / 2
          ∨ pkt.data.length = SIGLENGTH_BYTES + ECPUBSIZE / 2 + LINK_MTU_SIZE)
    (hmodepkt : mode_from_lp_packet pkt = st.mode)
    (hsig : ∀ pub sig msg, env.identityValidate pub sig msg = false) :
    (validate_proof st pkt env).1.status = LinkStatus.HANDSHAKE
    ∧ sentPackets (validate_proof st pkt env).2 = []
    ∧ Event.logged ∈ (validate_proof st pkt env).2 := by
  rcases hlen with hlen | hlen
  · simp [validate_proof, hmodepkt, hst, hini, hmode, hlen,
          handshake, load_peer, hprv, derived_key_length, MODE_DEFAULT, MODE_AES256_CBC,
          MODE_AES128_CBC, hsig, sentPackets, SIGLENGTH_BYTES, ECPUBSIZE, LINK_MTU_SIZE]
  · simp [validate_proof, mtu_from_lp_packet, signalling_bytes, ENABLED_MODES, hmodepkt,
          hst, hini, hmode, hlen, handshake, load_peer, hprv, derived_key_length,
          MODE_DEFAULT, MODE_AES256_CBC, MODE_AES128_CBC, hsig, sentPackets,
          List.length_take, SIGLENGTH_BYTES, ECPUBSIZE, LINK_MTU_SIZE]

/-- Claim C1 witness: the concrete pending initiator with a failing
signature, once for the 96-byte proof and once for the 99-byte proof
carrying the signalling tail. -/
theorem C1_invalid_signature_keeps_handshake_witness :
    ((validate_proof pendingLink proofPkt96 baseEnv).1.status = LinkStatus.HANDSHAKE
     ∧ sentPackets (validate_proof pendingLink proofPkt96 baseEnv).2 = []
     ∧ Event.logged ∈ (validate_proof pendingLink proofPkt96 baseEnv).2)
    ∧ ((validate_proof pendingLink proofPkt99 baseEnv).1.status = LinkStatus.HANDSHAKE
     ∧ sentPackets (validate_proof pendingLink proofPkt99 baseEnv).2 = []
     ∧ Event.logged ∈ (validate_proof pendingLink proofPkt99 baseEnv).2) :=
  ⟨C1_invalid_signature_keeps_handshake pendingLink proofPkt96 baseEnv
     (by decide) (by decide) (by decide) (by decide) (Or.inl (by decide)) (by decide)
     (fun _ _ _ => rfl),
   C1_invalid_signature_keeps_handshake pendingLink proofPkt99 baseEnv
     (by decide) (by decide) (by decide) (by decide) (Or.inr (by decide)) (by decide)
     (fun _ _ _ => rfl)⟩

/-! ### Shared trace-filter helpers -/

/-- Filtering a constant-image map by a predicate that rejects the
constant yields the empty list. -/
theorem filter_map_const {α : Type} (p : Event → Bool) (e : Event) (h : p e = false)
    (l : List α) : (l.map (fun _ => e)).filter p = [] := by
  induction l with
  | nil => rfl
  | cons a t ih => simpa [List.filter, h] using ih

/-- Filtering a conditional singleton by a predicate that rejects the
element yields the empty list. -/
theorem filter_if_singleton (p : Event → Bool) (c : Prop) [Decidable c] (e : Event)
    (h : p e = false) : List.filter p (if c then [e] else []) = [] := by
  split <;> simp [h]

/-- link_closed emits only resource cancellations, the channel shutdown,
the destination unlink and the closed callback; any predicate rejecting
those filters its trace to nothing. -/
theorem filter_link_closed (p : Event → Bool) (st : LinkState)
    (h1 : p Event.resourceCancelled = false) (h2 : p Event.channelShutdown = false)
    (h3 : p Event.destinationUnlinked = false) (h4 : p Event.callbackClosed = false) :
    (link_closed st).2.filter p = [] := by
  unfold link_closed
  simp only [List.filter_append, filter_map_const p Event.resourceCancelled h1,
             filter_if_singleton p _ Event.channelShutdown h2,
             filter_if_singleton p _ Event.destinationUnlinked h3,
             filter_if_singleton p _ Event.callbackClosed h4]
  simp

/-- Every teardown ends CLOSED with the keys nulled by link_closed. -/
theorem teardown_zeroed_closed (st : LinkState) (now : ℚ) :
    keysZeroed (teardown st now).1 ∧ (teardown st now).1.status = LinkStatus.CLOSED := by
  unfold teardown
  constructor
  · exact ⟨rfl, rfl, rfl, rfl, rfl⟩
  · rfl

/-- teardown preserves the role flag. -/
theorem teardown_initiator_eq (st : LinkState) (now : ℚ) :
    (teardown st now).1.initiator = st.initiator := by
  unfold teardown link_closed teardown_packet_send had_outbound
  dsimp only
  split <;> rfl

/-- A teardown that observes CLOSED sends no packet; its trace comes from
link_closed alone. -/
theorem filter_teardown_of_closed (p : Event → Bool) (st : LinkState) (now : ℚ)
    (hst : st.status = LinkStatus.CLOSED)
    (h1 : p Event.resourceCancelled = false) (h2 : p Event.channelShutdown = false)
    (h3 : p Event.destinationUnlinked = false) (h4 : p Event.callbackClosed = false) :
    (teardown st now).2.filter p = [] := by
  unfold teardown
  dsimp only
  rw [if_neg (by simp [hst])]
  simpa using filter_link_closed p _ h1 h2 h3 h4

/-! ### C2: key zeroing on CLOSED, silence after CLOSED -/

/-- Claim C2 counterexample: a mode-mismatched LRPROOF makes
validate_proof raise, and its exception handler sets status = CLOSED
without running link_closed — the DH private key survives entry into
CLOSED, contradicting the claim that all key material is zeroed on every
path into CLOSED (the proof-validation failure path among them). -/
theorem C2_zeroing_counterexample :
    (validate_proof pendingLink modeMismatchPkt baseEnv).1.status = LinkStatus.CLOSED
    ∧ ¬ keysZeroed (validate_proof pendingLink modeMismatchPkt baseEnv).1 := by
  decide

/-- Claim C2 (amended): on every path into CLOSED that runs link_closed —
local teardown, a validated remote LINKCLOSE, and the watchdog
establishment and stale timeouts — the DH private and public keys and the
shared and derived keys are set to None (the signing key and the peer
public keys are not cleared), and once status is CLOSED none of the
modelled entry points (receive, the watchdog, a second teardown) emits a
packet.  The validate_proof exception path, by contrast, enters CLOSED
without zeroing, as the counterexample shows. -/
theorem C2_zeroing_on_closed (st : LinkState) (pkt : Packet) (env : Env) (now : ℚ) :
    (keysZeroed (teardown st now).1 ∧ (teardown st now).1.status = LinkStatus.CLOSED)
    ∧ (link_decrypt st env pkt.data = some st.link_id →
        keysZeroed (teardown_packet st pkt env).1
        ∧ (teardown_packet st pkt env).1.status = LinkStatus.CLOSED)
    ∧ (st.status = LinkStatus.PENDING → now ≥ st.request_time + st.establishment_timeout →
        keysZeroed (watchdog_iteration st now).1
        ∧ (watchdog_iteration st now).1.status = LinkStatus.CLOSED)
    ∧ (st.status = LinkStatus.HANDSHAKE → now ≥ st.request_time + st.establishment_timeout →
        keysZeroed (watchdog_iteration st now).1
        ∧ (watchdog_iteration st now).1.status = LinkStatus.CLOSED)
    ∧ (st.status = LinkStatus.STALE →
        keysZeroed (watchdog_iteration st now).1
        ∧ (watchdog_iteration st now).1.status = LinkStatus.CLOSED)
    ∧ (st.status = LinkStatus.CLOSED →
        sentPackets (receive st pkt env).2 = []
        ∧ sentPackets (watchdog_iteration st now).2 = []
        ∧ sentPackets (teardown st now).2 = []) := by
  refine ⟨teardown_zeroed_closed st now, ?_, ?_, ?_, ?_, ?_⟩
  · intro hdec
    simp [teardown_packet, hdec, keysZeroed, link_closed]
  · intro hst htime
    simp only [watchdog_iteration, hst]
    rw [if_pos htime]
    exact ⟨⟨rfl, rfl, rfl, rfl, rfl⟩, rfl⟩
  · intro hst htime
    simp only [watchdog_iteration, hst]
    rw [if_pos htime]
    exact ⟨⟨rfl, rfl, rfl, rfl, rfl⟩, rfl⟩
  · intro hst
    simp only [watchdog_iteration, hst]
    exact ⟨⟨rfl, rfl, rfl, rfl, rfl⟩, rfl⟩
  · intro hst
    refine ⟨?_, ?_, ?_⟩
    · simp [receive, hst, sentPackets]
    · simp [watchdog_iteration, hst, sentPackets]
    · exact filter_teardown_of_closed _ st now hst rfl rfl rfl rfl

/-- Claim C2 witness: teardown, a validated remote LINKCLOSE, the three
watchdog timeout paths, and the silence of a closed link, at concrete
states. -/
theorem C2_zeroing_on_closed_witness :
    (keysZeroed (teardown baseLink 50).1 ∧ (teardown baseLink 50).1.status = LinkStatus.CLOSED)
    ∧ (keysZeroed (teardown_packet baseLink dataNonePkt closeEnv).1
       ∧ (teardown_packet baseLink dataNonePkt closeEnv).1.status = LinkStatus.CLOSED)
    ∧ (keysZeroed (watchdog_iteration pendingLink 50).1
       ∧ (watchdog_iteration pendingLink 50).1.status = LinkStatus.CLOSED)
    ∧ (keysZeroed (watchdog_iteration handshakeLink 50).1
       ∧ (watchdog_iteration handshakeLink 50).1.status = LinkStatus.CLOSED)
    ∧ (keysZeroed (watchdog_iteration staleLink 50).1
       ∧ (watchdog_iteration staleLink 50).1.status = LinkStatus.CLOSED)
    ∧ (sentPackets (receive closedLink dataNonePkt baseEnv).2 = []
       ∧ sentPackets (watchdog_iteration closedLink 50).2 = []
       ∧ sentPackets (teardown closedLink 50).2 = []) :=
  ⟨(C2_zeroing_on_closed baseLink dataNonePkt baseEnv 50).1,
   (C2_zeroing_on_closed baseLink dataNonePkt closeEnv 50).2.1 (by decide),
   (C2_zeroing_on_closed pendingLink dataNonePkt baseEnv 50).2.2.1 (by decide) (by norm_num [pendingLink, baseLink]),
   (C2_zeroing_on_closed handshakeLink dataNonePkt baseEnv 50).2.2.2.1 (by decide) (by norm_num [handshakeLink, baseLink]),
   (C2_zeroing_on_closed staleLink dataNonePkt baseEnv 50).2.2.2.2.1 (by decide),
   (C2_zeroing_on_closed closedLink dataNonePkt baseEnv 50).2.2.2.2.2 (by decide)⟩

/-! ### C3: decryption failure -/

/-- Claim C3 counterexample: a DATA/NONE packet whose decryption fails
still updates last_inbound (the timestamp is refreshed before decryption
is attempted), contradicting the claim that last_inbound is not updated
by processing such a packet. -/
theorem C3_decrypt_failure_counterexample :
    ¬ ((receive baseLink dataNonePkt baseEnv).1.last_inbound = baseLink.last_inbound) := by
  decide

/-- Claim C3 (amended): for every inbound DATA packet in an encrypted
context (other than CHANNEL, which proves the packet before decrypting)
whose decryption fails, the packet is dropped with no dispatch effect —
no packet is emitted and no callback fires, only the decryption-failure
log — but last_inbound, last_data, rx and rxbytes are updated (and a
STALE link is revived) before decryption is attempted. -/
theorem C3_decrypt_failure_updates_timestamps (st : LinkState) (pkt : Packet) (env : Env)
    (htype : pkt.packet_type = PType.DATA) (hctx : encryptedCtx pkt.context = true)
    (hst : st.status ≠ LinkStatus.CLOSED)
    (hiface : some pkt.receiving_interface = st.attached_interface)
    (hdec : link_decrypt st env pkt.data = none) :
    (receive st pkt env).1 = { st with
      watchdog_lock := false, last_inbound := env.now, last_data := env.now,
      rx := st.rx + 1, rxbytes := st.rxbytes + pkt.data.length,
      status := unstale st.status }
    ∧ nonLogEvents (receive st pkt env).2 = [] := by
  obtain ⟨ptype, ctx, data, rif, ph, th, rl⟩ := pkt
  simp only at htype hctx hiface hdec
  subst htype
  rw [link_decrypt] at hdec
  cases hdk : st.derived_key with
  | none =>
    cases ctx <;>
      first
        | exact absurd hctx Bool.false_ne_true
        | (cases hini : st.initiator <;>
            by_cases hstale : st.status = LinkStatus.STALE <;>
              simp [receive, dispatch, link_decrypt, rtt_packet, teardown_packet,
                    decrypt_events, hst, ← hiface, hdk, hini, hstale, nonLogEvents, unstale,
                    LinkState.mk.injEq])
  | some key =>
    rw [hdk] at hdec
    simp only [] at hdec
    cases ctx <;>
      first
        | exact absurd hctx Bool.false_ne_true
        | (cases hini : st.initiator <;>
            by_cases hstale : st.status = LinkStatus.STALE <;>
              simp [receive, dispatch, link_decrypt, rtt_packet, teardown_packet,
                    decrypt_events, hst, ← hiface, hdk, hdec, hini, hstale, nonLogEvents, unstale,
                    LinkState.mk.injEq])

/-- Claim C3 witness: the base link with an always-failing token. -/
theorem C3_decrypt_failure_updates_timestamps_witness :
    (receive baseLink dataNonePkt baseEnv).1 = { baseLink with
      watchdog_lock := false, last_inbound := 100, last_data := 100,
      rx := 1, rxbytes := 2, status := unstale baseLink.status }
    ∧ nonLogEvents (receive baseLink dataNonePkt baseEnv).2 = [] := by
  have h := C3_decrypt_failure_updates_timestamps baseLink dataNonePkt baseEnv
    rfl (by decide) (by decide) rfl rfl
  simpa [baseLink, dataNonePkt, baseEnv] using h

/-! ### C4: interface mismatch after ACTIVE -/

/-- Claim C4 counterexample: a 0xFF keep-alive injected on the wrong
interface of an ACTIVE initiator is discarded by the earlier
self-echo guard with no warning logged, contradicting the claim that
every mismatched packet is dropped with a logged warning. -/
theorem C4_interface_mismatch_counterexample :
    Event.logged ∉ (receive baseLink kaEchoWrongIfacePkt baseEnv).2 := by
  decide

/-- Claim C4 (amended): every inbound packet delivered to receive() on an
ACTIVE Link whose receiving interface differs from attached_interface is
dropped with no dispatch: no packet is sent, the state (status, rx,
rxbytes, last_inbound, last_data and all other fields) is unchanged and
the Link is not closed.  A security warning is logged unless the packet
was already discarded by the initiator keep-alive echo guard, which logs
nothing. -/
theorem C4_interface_mismatch_drops (st : LinkState) (pkt : Packet) (env : Env)
    (hst : st.status = LinkStatus.ACTIVE)
    (hiface : some pkt.receiving_interface ≠ st.attached_interface) :
    (receive st pkt env).1 = { st with watchdog_lock := false }
    ∧ (receive st pkt env).1.status = LinkStatus.ACTIVE
    ∧ sentPackets (receive st pkt env).2 = []
    ∧ (¬(st.initiator = true ∧ pkt.context = Ctx.KEEPALIVE ∧ pkt.data = [0xFF]) →
        (receive st pkt env).2 = [Event.logged]) := by
  by_cases hecho : st.initiator = true ∧ pkt.context = Ctx.KEEPALIVE ∧ pkt.data = [0xFF]
  · refine ⟨?_, ?_, ?_, fun hc => absurd hecho hc⟩ <;>
      simp [receive, hst, hecho, sentPackets]
  · refine ⟨?_, ?_, ?_, fun hc => ?_⟩ <;>
      simp [receive, hst, hecho, hiface, sentPackets]

/-- Claim C4 witness: a DATA/NONE packet on the wrong interface. -/
theorem C4_interface_mismatch_drops_witness :
    (receive baseLink dataWrongIfacePkt baseEnv).1 = { baseLink with watchdog_lock := false }
    ∧ (receive baseLink dataWrongIfacePkt baseEnv).1.status = LinkStatus.ACTIVE
    ∧ sentPackets (receive baseLink dataWrongIfacePkt baseEnv).2 = []
    ∧ (receive baseLink dataWrongIfacePkt baseEnv).2 = [Event.logged] := by
  obtain ⟨h1, h2, h3, h4⟩ :=
    C4_interface_mismatch_drops baseLink dataWrongIfacePkt baseEnv (by decide) (by decide)
  exact ⟨h1, h2, h3, h4 (by decide)⟩

/-! ### C5: second teardown -/

/-- Claim C5 counterexample: calling teardown() a second time re-invokes
link_closed and re-fires the link_closed callback, contradicting the
claim that the second call has no further observable effect. -/
theorem C5_second_teardown_counterexample :
    Event.callbackClosed ∈ (teardown (teardown baseLink 50).1 60).2 := by
  decide

/-- The fields of the state left by teardown that the second call reads. -/
theorem teardown_fields (st : LinkState) (now : ℚ) :
    (teardown st now).1.incoming_resources = []
    ∧ (teardown st now).1.outgoing_resources = []
    ∧ (teardown st now).1.channel_open = false
    ∧ (teardown st now).1.has_closed_callback = st.has_closed_callback
    ∧ (teardown st now).1.destination_in = st.destination_in
    ∧ (teardown st now).1.teardown_reason
        = some (if st.initiator = true then Reason.INITIATOR_CLOSED else Reason.DESTINATION_CLOSED) := by
  unfold teardown link_closed teardown_packet_send had_outbound
  dsimp only
  split <;> exact ⟨rfl, rfl, rfl, rfl, rfl, rfl⟩

/-- Claim C5 (amended): a second teardown() observes CLOSED and sends no
packet; status and teardown_reason are unchanged and no resource is
re-cancelled (the lists were already emptied), but link_closed runs
again, so the link_closed callback re-fires whenever it is set. -/
theorem C5_second_teardown_refires_callback (st : LinkState) (t1 t2 : ℚ) :
    (teardown (teardown st t1).1 t2).1.status = LinkStatus.CLOSED
    ∧ sentPackets (teardown (teardown st t1).1 t2).2 = []
    ∧ (teardown (teardown st t1).1 t2).1.teardown_reason = (teardown st t1).1.teardown_reason
    ∧ (teardown (teardown st t1).1 t2).2.filter (fun e => e == Event.resourceCancelled) = []
    ∧ (st.has_closed_callback = true →
        Event.callbackClosed ∈ (teardown (teardown st t1).1 t2).2) := by
  obtain ⟨hin, hout, hchan, hcb, hdin, hreason⟩ := teardown_fields st t1
  have hclosed := (teardown_zeroed_closed st t1).2
  have hini := teardown_initiator_eq st t1
  set s1 := (teardown st t1).1 with hs1
  unfold teardown
  dsimp only
  rw [if_neg (by simp [hclosed])]
  refine ⟨rfl, ?_, ?_, ?_, fun hcbt => ?_⟩
  · simp only [sentPackets, List.nil_append]
    exact filter_link_closed _ _ rfl rfl rfl rfl
  · rw [hreason]
    show some (if s1.initiator = true then Reason.INITIATOR_CLOSED else Reason.DESTINATION_CLOSED)
        = some (if st.initiator = true then Reason.INITIATOR_CLOSED else Reason.DESTINATION_CLOSED)
    rw [hini]
  · simp only [List.nil_append]
    simp [link_closed, hin, hout, hchan, List.filter_append,
          filter_if_singleton (fun e => e == Event.resourceCancelled) _ Event.channelShutdown rfl,
          filter_if_singleton (fun e => e == Event.resourceCancelled) _ Event.destinationUnlinked rfl,
          filter_if_singleton (fun e => e == Event.resourceCancelled) _ Event.callbackClosed rfl]
  · simp [link_closed, hcb, hcbt]

/-- Claim C5 witness: the base link torn down twice. -/
theorem C5_second_teardown_refires_callback_witness :
    (teardown (teardown baseLink 50).1 60).1.status = LinkStatus.CLOSED
    ∧ sentPackets (teardown (teardown baseLink 50).1 60).2 = []
    ∧ (teardown (teardown baseLink 50).1 60).1.teardown_reason = (teardown baseLink 50).1.teardown_reason
    ∧ (teardown (teardown baseLink 50).1 60).2.filter (fun e => e == Event.resourceCancelled) = []
    ∧ Event.callbackClosed ∈ (teardown (teardown baseLink 50).1 60).2 := by
  obtain ⟨h1, h2, h3, h4, h5⟩ := C5_second_teardown_refires_callback baseLink 50 60
  exact ⟨h1, h2, h3, h4, h5 (by decide)⟩

/-! ### C9: keep-alive asymmetry -/

/-- link_closed emits no keep-alive packet. -/
theorem filter_ka_link_closed (st : LinkState) :
    (link_closed st).2.filter isKeepaliveSend = [] :=
  filter_link_closed isKeepaliveSend st rfl rfl rfl rfl

/-- teardown emits no keep-alive packet (its only packet is LINKCLOSE). -/
theorem filter_ka_teardown (st : LinkState) (now : ℚ) :
    (teardown st now).2.filter isKeepaliveSend = [] := by
  unfold teardown teardown_packet_send had_outbound
  dsimp only
  split <;> simp [List.filter_append, filter_ka_link_closed, isKeepaliveSend]

/-- Handling a remote LINKCLOSE emits no keep-alive packet. -/
theorem filter_ka_teardown_packet (st : LinkState) (pkt : Packet) (env : Env) :
    (teardown_packet st pkt env).2.filter isKeepaliveSend = [] := by
  unfold teardown_packet
  cases link_decrypt st env pkt.data with
  | none => simp [isKeepaliveSend]
  | some pt =>
    dsimp only
    split
    · exact filter_ka_link_closed _
    · rfl

/-- Concluding a request receipt emits no keep-alive packet. -/
theorem filter_ka_response_received (r : RequestReceipt) (rdata : Bytes) (meta : Option Bytes)
    (now : ℚ) : (response_received r rdata meta now).2.filter isKeepaliveSend = [] := by
  unfold response_received
  split <;>
    simp [List.filter_append,
          filter_if_singleton isKeepaliveSend _ Event.packetReceiptDelivery rfl,
          filter_if_singleton isKeepaliveSend _ Event.callbackProgress rfl,
          filter_if_singleton isKeepaliveSend _ Event.callbackResponse rfl]

/-- handle_response emits no keep-alive packet. -/
theorem filter_ka_handle_response (st : LinkState) (rid rdata : Bytes) (a b : Nat)
    (meta : Option Bytes) (now : ℚ) :
    (handle_response st rid rdata a b meta now).2.filter isKeepaliveSend = [] := by
  unfold handle_response
  split
  · split
    · split
      · exact filter_ka_response_received _ _ _ _
      · rfl
    · rfl
  · rfl

/-- rtt_packet emits no keep-alive packet (on an unpack failure it tears
the link down, sending only LINKCLOSE). -/
theorem filter_ka_rtt_packet (st : LinkState) (pkt : Packet) (env : Env) :
    (rtt_packet st pkt env).2.filter isKeepaliveSend = [] := by
  unfold rtt_packet
  cases link_decrypt st env pkt.data with
  | none => simp [isKeepaliveSend]
  | some pt =>
    dsimp only
    cases env.unpackRtt pt with
    | none => simp [isKeepaliveSend, filter_ka_teardown]
    | some peer_rtt =>
      simp [filter_if_singleton isKeepaliveSend _ Event.callbackEstablished rfl]

/-- The RESOURCE_REQ scan emits no keep-alive packet. -/
theorem filter_ka_resource_req_fold (pkt : Packet) (rh : Bytes) (l : List Res)
    (acc : List Res × List Event) (hacc : acc.2.filter isKeepaliveSend = []) :
    (l.foldl (resource_req_step pkt rh) acc).2.filter isKeepaliveSend = [] := by
  induction l generalizing acc with
  | nil => exact hacc
  | cons r t ih =>
    refine ih _ ?_
    unfold resource_req_step
    split <;> simp [List.filter_append, hacc, isKeepaliveSend]

/-- The dispatcher emits a keep-alive only from its KEEPALIVE reply
branch, which is unreachable for an initiator or for a packet that is not
an 0xFF keep-alive. -/
theorem filter_ka_dispatch (st : LinkState) (pkt : Packet) (env : Env)
    (h : st.initiator = true ∨ (pkt.context = Ctx.KEEPALIVE → pkt.data ≠ [0xFF])) :
    (dispatch st pkt env).2.filter isKeepaliveSend = [] := by
  obtain ⟨ptype, ctx, data, rif, ph, th, rl⟩ := pkt
  simp only at h
  cases ptype with
  | DATA =>
    cases ctx with
    | NONE =>
      cases hdec : link_decrypt st env data with
      | none => simp [dispatch, hdec, isKeepaliveSend]
      | some pt =>
        cases hps : st.proof_strategy <;>
          simp [dispatch, hdec, hps, isKeepaliveSend, List.filter_append,
                filter_if_singleton isKeepaliveSend _ (Event.callbackPacket pt) rfl,
                filter_if_singleton isKeepaliveSend _ Event.packetProved rfl]
    | LINKIDENTIFY =>
      cases hdec : link_decrypt st env data with
      | none => simp [dispatch, hdec, isKeepaliveSend]
      | some pt =>
        simp [dispatch, hdec, isKeepaliveSend,
              apply_ite (Prod.snd : LinkState × List Event → List Event),
              apply_ite (List.filter isKeepaliveSend), ite_self,
              filter_if_singleton isKeepaliveSend _ Event.callbackRemoteIdentified rfl]
    | REQUEST =>
      cases hdec : link_decrypt st env data with
      | none => simp [dispatch, hdec, isKeepaliveSend]
      | some pt =>
        simp [dispatch, hdec, handle_request, isKeepaliveSend,
              apply_ite (Prod.snd : LinkState × List Event → List Event),
              apply_ite (List.filter isKeepaliveSend), ite_self,
              filter_if_singleton isKeepaliveSend _ (Event.requestDispatched th) rfl]
    | RESPONSE =>
      cases hdec : link_decrypt st env data with
      | none => simp [dispatch, hdec, isKeepaliveSend]
      | some pt =>
        cases hur : env.unpackResponse pt with
        | none => simp [dispatch, hdec, hur, isKeepaliveSend]
        | some tri =>
          obtain ⟨rid, rdata, tsize⟩ := tri
          simp [dispatch, hdec, hur, filter_ka_handle_response]
    | LRRTT =>
      cases hini : st.initiator <;> simp [dispatch, hini, filter_ka_rtt_packet]
    | LINKCLOSE => simp [dispatch, filter_ka_teardown_packet]
    | RESOURCE_ADV =>
      cases hdec : link_decrypt st env data with
      | none => simp [dispatch, hdec, isKeepaliveSend]
      | some pt => simp [dispatch, hdec, isKeepaliveSend]
    | RESOURCE_REQ =>
      cases hdec : link_decrypt st env data with
      | none => simp [dispatch, hdec, isKeepaliveSend]
      | some pt =>
        simp only [dispatch, hdec]
        exact filter_ka_resource_req_fold _ _ _ _ rfl
    | RESOURCE_HMU =>
      cases hdec : link_decrypt st env data with
      | none => simp [dispatch, hdec, isKeepaliveSend]
      | some pt => simp [dispatch, hdec, isKeepaliveSend, filter_map_const isKeepaliveSend Event.resourceEngine rfl]
    | RESOURCE_ICL =>
      cases hdec : link_decrypt st env data with
      | none => simp [dispatch, hdec, isKeepaliveSend]
      | some pt => simp [dispatch, hdec, isKeepaliveSend, filter_map_const isKeepaliveSend Event.resourceCancelled rfl]
    | RESOURCE_RCL =>
      cases hdec : link_decrypt st env data with
      | none => simp [dispatch, hdec, isKeepaliveSend]
      | some pt => simp [dispatch, hdec, isKeepaliveSend, filter_map_const isKeepaliveSend Event.resourceEngine rfl]
    | KEEPALIVE =>
      rcases h with hini | hdata
      · simp [dispatch, hini]
      · have hd : data ≠ [0xFF] := hdata rfl
        simp [dispatch, hd]
    | RESOURCE => simp [dispatch, isKeepaliveSend, filter_map_const isKeepaliveSend Event.resourceEngine rfl]
    | CHANNEL =>
      cases hco : st.channel_open with
      | false => simp [dispatch, hco, isKeepaliveSend]
      | true =>
        cases hdec : link_decrypt st env data with
        | none => simp [dispatch, hco, hdec, isKeepaliveSend]
        | some pt => simp [dispatch, hco, hdec, isKeepaliveSend]
    | RESOURCE_PRF => rfl
    | LRPROOF => rfl
  | PROOF =>
    cases ctx <;>
      first
        | (simp [dispatch, isKeepaliveSend, filter_map_const isKeepaliveSend Event.resourceEngine rfl])
        | rfl
  | LINKREQUEST => cases ctx <;> rfl

/-- receive emits a keep-alive only via the responder's reply branch. -/
theorem filter_ka_receive (st : LinkState) (pkt : Packet) (env : Env)
    (h : st.initiator = true ∨ (pkt.context = Ctx.KEEPALIVE → pkt.data ≠ [0xFF])) :
    (receive st pkt env).2.filter isKeepaliveSend = [] := by
  unfold receive
  dsimp only
  split
  · rfl
  · split
    · rfl
    · refine filter_ka_dispatch _ _ _ ?_
      rcases h with h | h
      · left
        simp only [apply_ite LinkState.initiator, ite_self]
        exact h
      · right
        exact h

/-- Claim C9: keep-alive traffic is strictly asymmetric.  The responder
never sends an unsolicited keep-alive — its watchdog emits none, and
receive() emits the 0xFE reply only for a received 0xFF keep-alive;
the initiator never emits a keep-alive from receive() at all, and an
inbound 0xFF keep-alive on an initiator Link is ignored by receive()
with no state change and no event.  Unsolicited 0xFF keep-alives come
only from the watchdog of an initiator. -/
theorem C9_keepalive_asymmetry (st : LinkState) (pkt : Packet) (env : Env) (now : ℚ) :
    (st.initiator = false → keepaliveSends (watchdog_iteration st now).2 = [])
    ∧ (st.initiator = true → keepaliveSends (receive st pkt env).2 = [])
    ∧ (st.initiator = false → (pkt.context = Ctx.KEEPALIVE → pkt.data ≠ [0xFF]) →
        keepaliveSends (receive st pkt env).2 = [])
    ∧ (st.initiator = true → pkt.context = Ctx.KEEPALIVE → pkt.data = [0xFF] →
        receive st pkt env = ({ st with watchdog_lock := false }, [])) := by
  refine ⟨?_, ?_, ?_, ?_⟩
  · intro hini
    rw [keepaliveSends]
    unfold watchdog_iteration
    cases hst : st.status <;> dsimp only
    · split
      · simp [List.filter, isKeepaliveSend, filter_ka_link_closed]
      · rfl
    · split
      · simp [List.filter_append, isKeepaliveSend, filter_ka_link_closed]
      · rfl
    · split
      · simp only [hini, Bool.false_eq_true, false_and, if_false]
        split
        · cases st.rtt <;> rfl
        · rfl
      · rfl
    · simp [teardown_packet_send, had_outbound, List.filter_append, isKeepaliveSend,
            filter_ka_link_closed]
    · rfl
  · intro hini
    rw [keepaliveSends]
    exact filter_ka_receive st pkt env (Or.inl hini)
  · intro hini hka
    rw [keepaliveSends]
    exact filter_ka_receive st pkt env (Or.inr hka)
  · intro hini hctx hdata
    simp [receive, hini, hctx, hdata]

/-- Claim C9 witness: responder watchdog silence, initiator receive
silence, responder silence on a non-keep-alive packet, and the
initiator's self-echo drop, at concrete states. -/
theorem C9_keepalive_asymmetry_witness :
    keepaliveSends (watchdog_iteration responderLink 100).2 = []
    ∧ keepaliveSends (receive baseLink dataNonePkt baseEnv).2 = []
    ∧ keepaliveSends (receive responderLink dataNonePkt baseEnv).2 = []
    ∧ receive baseLink kaEchoPkt baseEnv = ({ baseLink with watchdog_lock := false }, []) :=
  ⟨(C9_keepalive_asymmetry responderLink dataNonePkt baseEnv 100).1 (by decide),
   (C9_keepalive_asymmetry baseLink dataNonePkt baseEnv 100).2.1 (by decide),
   (C9_keepalive_asymmetry responderLink dataNonePkt baseEnv 100).2.2.1 (by decide)
     (fun hc => absurd hc (by decide)),
   (C9_keepalive_asymmetry baseLink kaEchoPkt baseEnv 100).2.2.2 (by decide) (by decide) (by decide)⟩
